import Mathlib

/-!
Fraud-case manager: role-based authorization and case-workflow core.

Shallow embedding of the fraud-case tracking backend's authorization and
lifecycle handlers.  Database tables (`users`, `fraud_cases`,
`case_escalations` — drizzle schema in the repository) are embedded as lists
of records inside a `DB` state; each handler is a pure function from the
`DB` state (plus its input) to an `Except` result together with the updated
state.  Postgres `serial` id columns are embedded as explicit counters in
the state, and `defaultNow()` / `new Date()` timestamps as a `now : Nat`
field.  The handlers throw plain `Error(message)` values; each throw site is
mapped to the error-taxonomy constructor that classifies its message
(NotFound / Validation / Permission / InvalidState / Conflict), with the
message noted in a comment.
-/

namespace FraudMgr

/-- `user_role` enum: admin, investigator, analyst, viewer. -/
inductive Role
  | admin
  | investigator
  | analyst
  | viewer
deriving DecidableEq, Repr

/-- Resource kinds accepted by `permissionCheckSchema`. -/
inductive Resource
  | case
  | user
  | escalation
deriving DecidableEq, Repr

/-- Actions accepted by `permissionCheckSchema`. -/
inductive Action
  | create
  | read
  | update
  | delete
  | escalate
  | assign
deriving DecidableEq, Repr

/-- `case_status` enum.  `open` is a Lean keyword, hence `open'`. -/
inductive CaseStatus
  | open'
  | in_progress
  | escalated
  | resolved
  | closed
deriving DecidableEq, Repr

/-- `case_priority` enum. -/
inductive Priority
  | low
  | medium
  | high
  | critical
deriving DecidableEq, Repr

/-- A row of the `users` table. -/
structure User where
  id : Nat
  username : String
  email : String
  role : Role
deriving DecidableEq, Repr

/-- A row of the `fraud_cases` table. -/
structure FraudCase where
  id : Nat
  txid : String
  description : String
  status : CaseStatus
  priority : Priority
  assigned_to : Option Nat
  created_by : Nat
  created_at : Nat
  updated_at : Nat
deriving DecidableEq, Repr

/-- A row of the `case_escalations` table. -/
structure CaseEscalation where
  id : Nat
  case_id : Nat
  escalated_by : Nat
  escalated_to : Option Nat
  previous_status : CaseStatus
  new_status : CaseStatus
  previous_priority : Priority
  new_priority : Priority
  reason : String
  created_at : Nat
deriving DecidableEq, Repr

/-- The database state: the three tables, the two serial-id sequences, and
the clock used for `defaultNow()` / `new Date()` writes. -/
structure DB where
  users : List User
  fraud_cases : List FraudCase
  case_escalations : List CaseEscalation
  next_case_id : Nat
  next_esc_id : Nat
  now : Nat
deriving DecidableEq, Repr

/-- Error taxonomy classifying the handlers' thrown `Error(message)` values. -/
inductive Err
  | NotFoundError
  | ValidationError
  | PermissionError
  | InvalidStateError
  | ConflictError
deriving DecidableEq, Repr

/-- `db.select().from(usersTable).where(eq(usersTable.id, userId))`. -/
def selectUsersById (db : DB) (userId : Nat) : List User :=
  db.users.filter (fun u => u.id == userId)

/-- `db.select().from(fraudCasesTable).where(eq(fraudCasesTable.id, caseId))`. -/
def selectCasesById (db : DB) (caseId : Nat) : List FraudCase :=
  db.fraud_cases.filter (fun c => c.id == caseId)

/-- `db.select().from(fraudCasesTable).where(eq(fraudCasesTable.txid, txid))`. -/
def selectCasesByTxid (db : DB) (txid : String) : List FraudCase :=
  db.fraud_cases.filter (fun c => c.txid == txid)

/-- `db.update(fraudCasesTable).set(...).where(eq(fraudCasesTable.id, caseId))`:
applies the `set` field-update to every row matching the id. -/
def updateCasesWhereId (cases : List FraudCase) (caseId : Nat)
    (set : FraudCase → FraudCase) : List FraudCase :=
  cases.map (fun c => if c.id == caseId then set c else c)

/-- `getUserRole` (handler file defining `checkPermissions`): selects the
user's role by id, `null` when the user does not exist. -/
def getUserRole (db : DB) (userId : Nat) : Option Role :=
  match selectUsersById db userId with
  | [] => none
  | u :: _ => some u.role

/-- The `permissions` object literal inside `checkPermissions`.  The source
object has rows only for investigator, analyst and viewer; admin is handled
by the bypass before the lookup, so its row here is never consulted (the
source would read `undefined` and deny). -/
def rolePermissions : Role → Resource → List Action
  | .investigator, .case => [.create, .read, .update, .escalate, .assign]
  | .investigator, .user => [.read]
  | .investigator, .escalation => [.create, .read]
  | .analyst, .case => [.read, .update, .escalate]
  | .analyst, .user => [.read]
  | .analyst, .escalation => [.create, .read]
  | .viewer, .case => [.read]
  | .viewer, .user => [.read]
  | .viewer, .escalation => [.read]
  | .admin, _ => []

/-- `permissionCheckSchema`: user id, action, resource. -/
structure PermissionCheck where
  user_id : Nat
  action : Action
  resource : Resource
deriving DecidableEq, Repr

/-- `checkPermissions`: resolves the user's role (false when the user is
missing), grants admin everything, otherwise consults the matrix. -/
def checkPermissions (db : DB) (check : PermissionCheck) : Bool :=
  match getUserRole db check.user_id with
  | none => false
  | some Role.admin => true
  | some role => (rolePermissions role check.resource).contains check.action

/-- Modelled from the spec: the §4.1 Permission Matrix as written in the
specification table, with the admin universal bypass.  This is the
refinement target that `checkPermissions` is compared against, not a
translation of the source. -/
def specAllowed : Role → Resource → Action → Bool
  | .admin, _, _ => true
  | .investigator, .case, a =>
      [Action.create, .read, .update, .escalate, .assign].contains a
  | .investigator, .user, a => [Action.read].contains a
  | .investigator, .escalation, a => [Action.create, .read].contains a
  | .analyst, .case, a => [Action.read, .update, .escalate].contains a
  | .analyst, .user, a => [Action.read].contains a
  | .analyst, .escalation, a => [Action.create, .read].contains a
  | .viewer, .case, a => [Action.read].contains a
  | .viewer, .user, a => [Action.read].contains a
  | .viewer, .escalation, a => [Action.read].contains a

/-- `createFraudCaseInputSchema`. -/
structure CreateFraudCaseInput where
  txid : String
  description : String
  priority : Priority
  created_by : Nat
deriving DecidableEq, Repr

/-- `createFraudCase` (handlers/create_fraud_case.ts): checks the creator
exists (`Error('User with ID ... does not exist')` ↦ NotFoundError), then
inserts the row.  The handler performs no permission-matrix check and no
explicit txid check; the insert fails on the `fraud_cases.txid` UNIQUE
constraint when the txid is already used (uniqueness violation ↦
ConflictError).  The new row gets status `open`, `assigned_to` null, and the
`defaultNow()` timestamps. -/
def createFraudCase (db : DB) (input : CreateFraudCaseInput) :
    Except Err (DB × FraudCase) :=
  match selectUsersById db input.created_by with
  | [] => .error .NotFoundError
  | _ :: _ =>
    if db.fraud_cases.any (fun c => c.txid == input.txid) then
      .error .ConflictError
    else
      let newCase : FraudCase :=
        { id := db.next_case_id
          txid := input.txid
          description := input.description
          status := .open'
          priority := input.priority
          assigned_to := none
          created_by := input.created_by
          created_at := db.now
          updated_at := db.now }
      .ok ({ db with
              fraud_cases := db.fraud_cases ++ [newCase]
              next_case_id := db.next_case_id + 1 }, newCase)

/-- `assignCase` (handlers/assign_case.ts): case must exist
(`'Case not found'` ↦ NotFoundError); assignee must exist
(`'Assignee user not found'` ↦ NotFoundError) and have role investigator or
analyst (`'Assignee must have investigator or analyst role'` ↦
ValidationError); assigner must exist (`'Assigner user not found'` ↦
NotFoundError) and have role admin, investigator or analyst
(`'Assigner must have admin, investigator, or analyst role'` ↦
PermissionError).  Then the case row is updated: `assigned_to` set, status
forced to `in_progress`, timestamp refreshed — with no look at the prior
status. -/
def assignCase (db : DB) (caseId assignedTo assignedBy : Nat) :
    Except Err (DB × FraudCase) :=
  match selectCasesById db caseId with
  | [] => .error .NotFoundError
  | existingCase :: _ =>
    match selectUsersById db assignedTo with
    | [] => .error .NotFoundError
    | assignee :: _ =>
      if !([Role.investigator, Role.analyst].contains assignee.role) then
        .error .ValidationError
      else
        match selectUsersById db assignedBy with
        | [] => .error .NotFoundError
        | assigner :: _ =>
          if !([Role.admin, Role.investigator, Role.analyst].contains assigner.role) then
            .error .PermissionError
          else
            let set : FraudCase → FraudCase := fun c =>
              { c with assigned_to := some assignedTo
                       status := .in_progress
                       updated_at := db.now }
            .ok ({ db with
                    fraud_cases := updateCasesWhereId db.fraud_cases caseId set },
                 set existingCase)

/-- `updateFraudCaseInputSchema`: every field optional; `assigned_to` is
`number | null | undefined`, embedded as `Option (Option Nat)` (`none` =
absent, `some none` = explicit null). -/
structure UpdateFraudCaseInput where
  id : Nat
  txid : Option String
  description : Option String
  status : Option CaseStatus
  priority : Option Priority
  assigned_to : Option (Option Nat)
deriving DecidableEq, Repr

/-- `updateFraudCase` (handler in the repository): case must exist
(`'Fraud case with id ... not found'` ↦ NotFoundError); acting user must
exist (`'User with id ... not found'` ↦ NotFoundError); permitted iff the
user is admin, or an investigator/analyst assigned to the case
(`'Insufficient permissions to update this fraud case'` ↦ PermissionError);
when `assigned_to` is present and non-null the target user must exist
(`'User with id ... not found'` ↦ NotFoundError).  Only the provided fields
are written; `updated_at` is always refreshed.  No check of the case's
current status is made. -/
def updateFraudCase (db : DB) (input : UpdateFraudCaseInput) (userId : Nat) :
    Except Err (DB × FraudCase) :=
  match selectCasesById db input.id with
  | [] => .error .NotFoundError
  | caseRecord :: _ =>
    match selectUsersById db userId with
    | [] => .error .NotFoundError
    | user :: _ =>
      let canUpdate := user.role == Role.admin ||
        (user.role == Role.investigator && caseRecord.assigned_to == some userId) ||
        (user.role == Role.analyst && caseRecord.assigned_to == some userId)
      if !canUpdate then
        .error .PermissionError
      else
        let assigneeMissing :=
          match input.assigned_to with
          | some (some target) => selectUsersById db target == ([] : List User)
          | _ => false
        if assigneeMissing then
          .error .NotFoundError
        else
          let set : FraudCase → FraudCase := fun c =>
            { c with
                txid := input.txid.getD c.txid
                description := input.description.getD c.description
                status := input.status.getD c.status
                priority := input.priority.getD c.priority
                assigned_to := input.assigned_to.getD c.assigned_to
                updated_at := db.now }
          .ok ({ db with
                  fraud_cases := updateCasesWhereId db.fraud_cases input.id set },
               set caseRecord)

/-- `closeCase` (handlers/close_case.ts): acting user must exist
(`'User not found'` ↦ NotFoundError); case must exist
(`'Case not found'` ↦ NotFoundError); the case must be in `resolved` status
(`'Case must be in resolved status to be closed'` ↦ InvalidStateError) —
this check runs before the permission check; permitted iff admin, or an
investigator/analyst assigned to the case
(`'Insufficient permissions to close this case'` ↦ PermissionError).  Then
status is set to `closed` and the timestamp refreshed. -/
def closeCase (db : DB) (caseId userId : Nat) : Except Err (DB × FraudCase) :=
  match selectUsersById db userId with
  | [] => .error .NotFoundError
  | user :: _ =>
    match selectCasesById db caseId with
    | [] => .error .NotFoundError
    | fraudCase :: _ =>
      if fraudCase.status != CaseStatus.resolved then
        .error .InvalidStateError
      else
        let canClose := user.role == Role.admin ||
          (fraudCase.assigned_to == some userId &&
           (user.role == Role.investigator || user.role == Role.analyst))
        if !canClose then
          .error .PermissionError
        else
          let set : FraudCase → FraudCase := fun c =>
            { c with status := .closed, updated_at := db.now }
          .ok ({ db with
                  fraud_cases := updateCasesWhereId db.fraud_cases caseId set },
               set fraudCase)

/-- `escalateCaseInputSchema`: `escalated_to` is `number | null | undefined`,
embedded as `Option (Option Nat)` (`none` = absent, `some none` = explicit
null); `new_status` is optional. -/
structure EscalateCaseInput where
  case_id : Nat
  escalated_by : Nat
  escalated_to : Option (Option Nat)
  new_status : Option CaseStatus
  new_priority : Priority
  reason : String
deriving DecidableEq, Repr

/-- JavaScript `input.escalated_to || null`: `undefined` and `null` (and the
falsy id `0`) give `null`; any other number passes through. -/
def jsOrNull : Option (Option Nat) → Option Nat
  | some (some n) => if n == 0 then none else some n
  | _ => none

/-- First statement of `escalateCase` (handlers/escalate_case.ts): fetch the
case (`'Case with ID ... not found'` ↦ NotFoundError), build the escalation
record — `previous_status`/`previous_priority` from the current row,
`new_status` defaulting to `escalated` when absent — and insert it into
`case_escalations`. -/
def escalateInsertPhase (db : DB) (input : EscalateCaseInput) :
    Except Err (DB × CaseEscalation) :=
  match selectCasesById db input.case_id with
  | [] => .error .NotFoundError
  | existingCase :: _ =>
    let escalation : CaseEscalation :=
      { id := db.next_esc_id
        case_id := input.case_id
        escalated_by := input.escalated_by
        escalated_to := jsOrNull input.escalated_to
        previous_status := existingCase.status
        new_status := input.new_status.getD .escalated
        previous_priority := existingCase.priority
        new_priority := input.new_priority
        reason := input.reason
        created_at := db.now }
    .ok ({ db with
            case_escalations := db.case_escalations ++ [escalation]
            next_esc_id := db.next_esc_id + 1 }, escalation)

/-- The `updateData` object of `escalateCase`: the new priority and a fresh
timestamp always; `status` only when `input.new_status` was provided;
`assigned_to` only when `input.escalated_to !== undefined`. -/
def escalateUpdateSet (db : DB) (input : EscalateCaseInput) (c : FraudCase) :
    FraudCase :=
  let c1 := { c with priority := input.new_priority, updated_at := db.now }
  let c2 := match input.new_status with
            | some s => { c1 with status := s }
            | none => c1
  match input.escalated_to with
  | some v => { c2 with assigned_to := v }
  | none => c2

/-- Second statement of `escalateCase`: the case-row update with
`.returning()`; the returned row is the updated first match. -/
def escalateUpdatePhase (db : DB) (input : EscalateCaseInput) :
    DB × Option FraudCase :=
  ({ db with
      fraud_cases :=
        updateCasesWhereId db.fraud_cases input.case_id (escalateUpdateSet db input) },
   (selectCasesById db input.case_id).head?.map (escalateUpdateSet db input))

/-- `escalateCase`: the insert statement followed by the update statement.
The two are separate `await db....execute()` calls with no surrounding
transaction. -/
def escalateCase (db : DB) (input : EscalateCaseInput) :
    Except Err (DB × FraudCase × CaseEscalation) :=
  match escalateInsertPhase db input with
  | .error e => .error e
  | .ok (db1, escalation) =>
    match escalateUpdatePhase db1 input with
    | (db2, some updatedCase) => .ok (db2, updatedCase, escalation)
    | (_, none) => .error .NotFoundError

/-- The committed database states of one `escalateCase` execution.  Each of
the handler's statements is its own atomic commit (there is no transaction
around them), so the state after the insert alone — reached when the
subsequent case update fails and the thrown error propagates — is an
observable persisted state, alongside the initial state and the state after
both statements. -/
def escalateCommitStates (db : DB) (input : EscalateCaseInput) : List DB :=
  match escalateInsertPhase db input with
  | .error _ => [db]
  | .ok (db1, _) => [db, db1, (escalateUpdatePhase db1 input).1]

/-- `getFraudCaseById` (handlers/get_fraud_case_by_id.ts): missing case →
null; when a `userId` is given, a missing user → null; admin and viewer see
every case; investigator and analyst only cases they created or are assigned
to (else null). -/
def getFraudCaseById (db : DB) (id : Nat) (userId : Option Nat) :
    Option FraudCase :=
  match selectCasesById db id with
  | [] => none
  | caseData :: _ =>
    match userId with
    | none => some caseData
    | some uid =>
      match selectUsersById db uid with
      | [] => none
      | user :: _ =>
        match user.role with
        | .admin => some caseData
        | .viewer => some caseData
        | _ =>
          if caseData.created_by != uid && caseData.assigned_to != some uid then
            none
          else
            some caseData

/-- `getFraudCaseByTxid` (handler in the repository): missing case → null;
when a `userId` is given, a missing user throws (`'User not found'` ↦
NotFoundError); admin, investigator and analyst may read every case, a
viewer only cases they created or are assigned to — a denied viewer throws
(`'Insufficient permissions to access this case'` ↦ PermissionError) rather
than returning null. -/
def getFraudCaseByTxid (db : DB) (txid : String) (userId : Option Nat) :
    Except Err (Option FraudCase) :=
  match selectCasesByTxid db txid with
  | [] => .ok none
  | fraudCase :: _ =>
    match userId with
    | none => .ok (some fraudCase)
    | some uid =>
      match selectUsersById db uid with
      | [] => .error .NotFoundError
      | user :: _ =>
        let canRead := user.role == Role.admin ||
          user.role == Role.investigator ||
          user.role == Role.analyst ||
          (user.role == Role.viewer &&
            (fraudCase.created_by == uid || fraudCase.assigned_to == some uid))
        if !canRead then
          .error .PermissionError
        else
          .ok (some fraudCase)

/-- Comparison of escalation records by creation timestamp. -/
def escLE (a b : CaseEscalation) : Prop :=
  a.created_at ≤ b.created_at

instance : DecidableRel escLE :=
  fun a b => inferInstanceAs (Decidable (a.created_at ≤ b.created_at))

instance : IsTotal CaseEscalation escLE :=
  ⟨fun a b => Nat.le_total a.created_at b.created_at⟩

instance : IsTrans CaseEscalation escLE :=
  ⟨fun _ _ _ h1 h2 => Nat.le_trans h1 h2⟩

/-- `ORDER BY case_escalations.created_at` (ascending): embedded as a stable
sort on the creation timestamp. -/
def orderByCreatedAt (l : List CaseEscalation) : List CaseEscalation :=
  List.insertionSort escLE l

/-- `getCaseEscalations` (handlers/get_case_escalations.ts): case must exist
(`'Fraud case not found'` ↦ NotFoundError); when a `userId` is supplied the
user must exist (`'User not found'` ↦ NotFoundError) and must not be a
viewer (`'Insufficient permissions to view escalation history'` ↦
PermissionError); when no `userId` is supplied these checks are skipped.
Returns the case's escalations ordered by creation date. -/
def getCaseEscalations (db : DB) (caseId : Nat) (userId : Option Nat) :
    Except Err (List CaseEscalation) :=
  if (selectCasesById db caseId).isEmpty then
    .error .NotFoundError
  else
    let userCheck : Except Err Unit :=
      match userId with
      | none => .ok ()
      | some uid =>
        match selectUsersById db uid with
        | [] => .error .NotFoundError
        | user :: _ =>
          if user.role == Role.viewer then
            .error .PermissionError
          else
            .ok ()
    match userCheck with
    | .error e => .error e
    | .ok _ =>
      .ok (orderByCreatedAt (db.case_escalations.filter (fun e => e.case_id == caseId)))

/-! ### Concrete fixture data

A small database used to exercise the handlers on concrete inputs: one user
of each role, one case in each of the statuses the claims talk about, and an
escalation history for case 1 whose rows are stored out of timestamp
order. -/

/-- Fixture: an admin user. -/
def u1 : User := { id := 1, username := "alice", email := "alice@example.com", role := .admin }

/-- Fixture: an investigator. -/
def u2 : User := { id := 2, username := "ivan", email := "ivan@example.com", role := .investigator }

/-- Fixture: an analyst. -/
def u3 : User := { id := 3, username := "anna", email := "anna@example.com", role := .analyst }

/-- Fixture: a viewer. -/
def u4 : User := { id := 4, username := "vera", email := "vera@example.com", role := .viewer }

/-- Fixture: an open, unassigned case created by the investigator. -/
def c1open : FraudCase :=
  { id := 1, txid := "TX1", description := "suspicious transfer"
    status := .open', priority := .medium, assigned_to := none
    created_by := 2, created_at := 10, updated_at := 10 }

/-- Fixture: a closed case assigned to the analyst. -/
def c2closed : FraudCase :=
  { id := 2, txid := "TX2", description := "card testing pattern"
    status := .closed, priority := .high, assigned_to := some 3
    created_by := 2, created_at := 11, updated_at := 20 }

/-- Fixture: a resolved case assigned to the analyst. -/
def c3resolved : FraudCase :=
  { id := 3, txid := "TX3", description := "account takeover attempt"
    status := .resolved, priority := .high, assigned_to := some 3
    created_by := 2, created_at := 12, updated_at := 30 }

/-- Fixture: an escalation of case 1 created at time 60 (stored first). -/
def e1 : CaseEscalation :=
  { id := 1, case_id := 1, escalated_by := 2, escalated_to := none
    previous_status := .open', new_status := .escalated
    previous_priority := .medium, new_priority := .high
    reason := "second look requested", created_at := 60 }

/-- Fixture: an escalation of case 1 created at time 50 (stored second). -/
def e2 : CaseEscalation :=
  { id := 2, case_id := 1, escalated_by := 3, escalated_to := some 2
    previous_status := .open', new_status := .escalated
    previous_priority := .medium, new_priority := .critical
    reason := "large amounts involved", created_at := 50 }

/-- The fixture database. -/
def baseDB : DB :=
  { users := [u1, u2, u3, u4]
    fraud_cases := [c1open, c2closed, c3resolved]
    case_escalations := [e1, e2]
    next_case_id := 4, next_esc_id := 3, now := 100 }

/-- Fixture: an escalation request for case 1 without a `new_status`. -/
def escInputNoStatus : EscalateCaseInput :=
  { case_id := 1, escalated_by := 2, escalated_to := none
    new_status := none, new_priority := .critical
    reason := "needs senior review now" }

end FraudMgr

namespace FraudMgr

/-- C1: for every role, resource and action, `checkPermissions` returns true
exactly when the §4.1 matrix cell for the acting user's role lists that
action; admin always gets true, and an unknown user yields false
(fail-closed). -/
theorem checkPermissions_matches_spec_matrix (db : DB) (check : PermissionCheck) :
    checkPermissions db check =
      match getUserRole db check.user_id with
      | none => false
      | some role => specAllowed role check.resource check.action := by
  obtain ⟨uid, act, res⟩ := check
  unfold checkPermissions
  cases h : getUserRole db uid with
  | none => rfl
  | some role => cases role <;> cases res <;> cases act <;> rfl

/-- Replacing the escalation ledger and its id sequence does not change a
case lookup. -/
theorem selectCasesById_with_escalations (db : DB) (l : List CaseEscalation)
    (n i : Nat) :
    selectCasesById { db with case_escalations := l, next_esc_id := n } i =
      selectCasesById db i := rfl

/-- C2 counterexample: on the fixture database, escalating the open case 1
without a `newStatus` leaves the case's status `open`, not `escalated` —
refuting the claim that the resulting status is always `escalated`. -/
theorem escalate_default_status_cex :
    ∃ (db : DB) (input : EscalateCaseInput) (db' : DB) (c : FraudCase)
      (e : CaseEscalation),
      input.new_status = none ∧
      escalateCase db input = Except.ok (db', c, e) ∧
      c.status ≠ CaseStatus.escalated := by
  refine ⟨baseDB, escInputNoStatus, _, _, _, rfl, rfl, ?_⟩
  decide

/-- C2 amended: when `Escalate` is called without `newStatus` on an existing
case, the case's status is left unchanged (equal to its prior status), while
the appended EscalationRecord's `previous_status` equals the prior status
and its `new_status` equals `escalated`. -/
theorem escalate_without_newStatus_spec (db : DB) (input : EscalateCaseInput)
    (c0 : FraudCase) (rest : List FraudCase) (db' : DB) (c : FraudCase)
    (e : CaseEscalation)
    (hns : input.new_status = none)
    (hsel : selectCasesById db input.case_id = c0 :: rest)
    (hok : escalateCase db input = Except.ok (db', c, e)) :
    c.status = c0.status ∧ e.previous_status = c0.status ∧
      e.new_status = CaseStatus.escalated := by
  have hsel' : db.fraud_cases.filter (fun x => x.id == input.case_id) = c0 :: rest :=
    hsel
  unfold escalateCase escalateInsertPhase escalateUpdatePhase selectCasesById at hok
  dsimp only at hok
  rw [hsel'] at hok
  rw [hns] at hok
  dsimp only [List.head?, Option.map, Option.getD] at hok
  rw [hsel'] at hok
  dsimp only at hok
  simp only [Except.ok.injEq, Prod.mk.injEq] at hok
  obtain ⟨-, hc, he⟩ := hok
  subst hc
  subst he
  refine ⟨?_, rfl, rfl⟩
  unfold escalateUpdateSet
  cases input.escalated_to <;> simp [hns]

/-- C2 witness: the amended statement instantiated on the fixture database:
escalating the open case 1 without a `newStatus` keeps status `open` and
records `previous_status = open`, `new_status = escalated`. -/
theorem escalate_without_newStatus_spec_witness :
    escInputNoStatus.new_status = none ∧
    ∃ db' c e, escalateCase baseDB escInputNoStatus = Except.ok (db', c, e) ∧
      (c.status = c1open.status ∧ e.previous_status = c1open.status ∧
        e.new_status = CaseStatus.escalated) := by
  refine ⟨rfl, ?_⟩
  refine ⟨_, _, _, rfl, ?_⟩
  exact escalate_without_newStatus_spec baseDB escInputNoStatus c1open [] _ _ _
    rfl rfl rfl

/-- C3 counterexample: on the fixture database, the viewer (user 4) is
neither creator nor assignee of case 1, yet `getFraudCaseById` returns the
case data — refuting the claim that such a lookup always yields
not-found. -/
theorem case_lookup_visibility_cex :
    ∃ (db : DB) (id uid : Nat) (u : User) (us : List User) (c : FraudCase)
      (cs : List FraudCase),
      selectUsersById db uid = u :: us ∧
      (u.role = Role.viewer ∨ u.role = Role.analyst) ∧
      selectCasesById db id = c :: cs ∧
      c.created_by ≠ uid ∧ c.assigned_to ≠ some uid ∧
      getFraudCaseById db id (some uid) ≠ none := by
  exact ⟨baseDB, 1, 4, u4, [], c1open, [], rfl, Or.inl rfl, rfl,
    by decide, by decide, by decide⟩

/-- C3 amended: the two lookup handlers disagree with the claimed uniform
visibility rule.  `getFraudCaseById`: an investigator or analyst who is
neither creator nor assignee gets null, but an admin or viewer always gets
the case data.  `getFraudCaseByTxid`: an admin, investigator or analyst
always gets the case data, and a viewer who is neither creator nor assignee
gets a thrown PermissionError, not a not-found result. -/
theorem case_lookup_visibility_spec (db : DB) :
    (∀ id uid u us c cs, selectUsersById db uid = u :: us →
       (u.role = Role.investigator ∨ u.role = Role.analyst) →
       selectCasesById db id = c :: cs →
       c.created_by ≠ uid → c.assigned_to ≠ some uid →
       getFraudCaseById db id (some uid) = none) ∧
    (∀ id uid u us c cs, selectUsersById db uid = u :: us →
       (u.role = Role.admin ∨ u.role = Role.viewer) →
       selectCasesById db id = c :: cs →
       getFraudCaseById db id (some uid) = some c) ∧
    (∀ txid uid u us c cs, selectUsersById db uid = u :: us →
       (u.role = Role.admin ∨ u.role = Role.investigator ∨ u.role = Role.analyst) →
       selectCasesByTxid db txid = c :: cs →
       getFraudCaseByTxid db txid (some uid) = Except.ok (some c)) ∧
    (∀ txid uid u us c cs, selectUsersById db uid = u :: us →
       u.role = Role.viewer →
       selectCasesByTxid db txid = c :: cs →
       c.created_by ≠ uid → c.assigned_to ≠ some uid →
       getFraudCaseByTxid db txid (some uid) = Except.error Err.PermissionError) := by
  refine ⟨?_, ?_, ?_, ?_⟩
  · intro id uid u us c cs hu hrole hc hcb hat
    unfold getFraudCaseById
    rw [hc]
    dsimp only
    rw [hu]
    dsimp only
    rcases hrole with h | h <;> rw [h] <;> dsimp only <;>
      rw [if_pos (by simp [bne_iff_ne]; exact ⟨hcb, hat⟩)]
  · intro id uid u us c cs hu hrole hc
    unfold getFraudCaseById
    rw [hc]
    dsimp only
    rw [hu]
    dsimp only
    rcases hrole with h | h <;> rw [h]
  · intro txid uid u us c cs hu hrole hc
    unfold getFraudCaseByTxid
    rw [hc]
    dsimp only
    rw [hu]
    dsimp only
    rcases hrole with h | h | h <;> rw [h] <;> rfl
  · intro txid uid u us c cs hu hrole hc hcb hat
    unfold getFraudCaseByTxid
    rw [hc]
    dsimp only
    rw [hu]
    dsimp only
    rw [hrole]
    rw [if_pos (by simp [beq_iff_eq]; exact ⟨hcb, hat⟩)]

/-- C3 witness: the amended statement instantiated on the fixture database —
the analyst (user 3) gets null for case 1 by id but the full case by txid;
the viewer (user 4) gets the full case by id but a PermissionError by
txid. -/
theorem case_lookup_visibility_spec_witness :
    getFraudCaseById baseDB 1 (some 3) = none ∧
    getFraudCaseById baseDB 1 (some 4) = some c1open ∧
    getFraudCaseByTxid baseDB "TX1" (some 3) = Except.ok (some c1open) ∧
    getFraudCaseByTxid baseDB "TX1" (some 4) = Except.error Err.PermissionError := by
  refine ⟨?_, ?_, ?_, ?_⟩
  · exact (case_lookup_visibility_spec baseDB).1 1 3 u3 [] c1open [] rfl
      (Or.inr rfl) rfl (by decide) (by decide)
  · exact (case_lookup_visibility_spec baseDB).2.1 1 4 u4 [] c1open [] rfl
      (Or.inr rfl) rfl
  · exact (case_lookup_visibility_spec baseDB).2.2.1 "TX1" 3 u3 [] c1open [] rfl
      (Or.inr (Or.inr rfl)) rfl
  · exact (case_lookup_visibility_spec baseDB).2.2.2 "TX1" 4 u4 [] c1open [] rfl
      rfl rfl (by decide) (by decide)

/-- C4 counterexample: on the fixture database, assigning the closed case 2
to the analyst by the admin succeeds and sets the status to `in_progress` —
refuting the claim that no lifecycle operation changes a closed case's
status. -/
theorem closed_terminal_cex :
    ∃ (db : DB) (caseId aTo aBy : Nat) (c : FraudCase) (cs : List FraudCase)
      (db' : DB) (c' : FraudCase),
      selectCasesById db caseId = c :: cs ∧ c.status = CaseStatus.closed ∧
      assignCase db caseId aTo aBy = Except.ok (db', c') ∧
      c'.status ≠ CaseStatus.closed := by
  exact ⟨baseDB, 2, 3, 1, c2closed, [], _, _, rfl, rfl, rfl, by decide⟩

/-- C4 amended: `closed` is terminal only with respect to Close: closing an
already-closed case fails with InvalidStateError (as does closing any
non-resolved case), but Assign with a valid assignee and assigner succeeds
on a closed case and forces its status to `in_progress`. -/
theorem closed_terminal_only_for_close (db : DB) :
    (∀ caseId uid u us c cs, selectUsersById db uid = u :: us →
        selectCasesById db caseId = c :: cs → c.status = CaseStatus.closed →
        closeCase db caseId uid = Except.error Err.InvalidStateError) ∧
    (∀ caseId aTo aBy assignee uts assigner bts c cs,
        selectCasesById db caseId = c :: cs →
        selectUsersById db aTo = assignee :: uts →
        (assignee.role = Role.investigator ∨ assignee.role = Role.analyst) →
        selectUsersById db aBy = assigner :: bts →
        (assigner.role = Role.admin ∨ assigner.role = Role.investigator ∨
          assigner.role = Role.analyst) →
        ∃ db' c', assignCase db caseId aTo aBy = Except.ok (db', c') ∧
          c'.status = CaseStatus.in_progress ∧ c'.assigned_to = some aTo) := by
  constructor
  · intro caseId uid u us c cs hu hc hclosed
    unfold closeCase
    rw [hu]
    dsimp only
    rw [hc]
    dsimp only
    rw [hclosed]
    rw [if_pos (by decide)]
  · intro caseId aTo aBy assignee uts assigner bts c cs hc hT hTrole hB hBrole
    unfold assignCase
    rw [hc]
    dsimp only
    rw [hT]
    dsimp only
    rw [if_neg (by rcases hTrole with h | h <;> simp [h])]
    rw [hB]
    dsimp only
    rw [if_neg (by rcases hBrole with h | h | h <;> simp [h])]
    exact ⟨_, _, rfl, rfl, rfl⟩

/-- C4 witness: on the fixture database, the admin cannot close the closed
case 2 (InvalidStateError), yet assigning it to the analyst succeeds and
moves it to `in_progress`. -/
theorem closed_terminal_only_for_close_witness :
    closeCase baseDB 2 1 = Except.error Err.InvalidStateError ∧
    ∃ db' c', assignCase baseDB 2 3 1 = Except.ok (db', c') ∧
      c'.status = CaseStatus.in_progress ∧ c'.assigned_to = some 3 := by
  constructor
  · exact (closed_terminal_only_for_close baseDB).1 2 1 u1 [] c2closed [] rfl rfl rfl
  · exact (closed_terminal_only_for_close baseDB).2 2 3 1 u3 [] u1 [] c2closed []
      rfl rfl (Or.inr rfl) rfl (Or.inl rfl)

/-- C5 counterexample: on the fixture database, the viewer (user 4) — whose
role is not granted `create` on `case` by the Permission Matrix — creates a
case with a fresh txid and the call succeeds, refuting the claim that
Create requires the matrix's `create` permission. -/
theorem create_requires_permission_cex :
    ∃ (db : DB) (input : CreateFraudCaseInput) (u : User) (us : List User)
      (db' : DB) (c : FraudCase),
      selectUsersById db input.created_by = u :: us ∧
      specAllowed u.role Resource.case Action.create = false ∧
      createFraudCase db input = Except.ok (db', c) := by
  exact ⟨baseDB,
    { txid := "TXNEW", description := "a sufficiently long description"
      priority := .low, created_by := 4 },
    u4, [], _, _, rfl, rfl, rfl⟩

/-- C5 amended: Create succeeds iff the creator exists and the txid is not
already used (a duplicate txid fails with ConflictError, a missing creator
with NotFoundError); no Permission-Matrix check is made, so any existing
user — a viewer included — may create a case; on success the new case has
status `open` and `assigned_to` none. -/
theorem createFraudCase_spec (db : DB) (input : CreateFraudCaseInput) :
    (selectUsersById db input.created_by = [] →
        createFraudCase db input = Except.error Err.NotFoundError) ∧
    (∀ u us, selectUsersById db input.created_by = u :: us →
        db.fraud_cases.any (fun c => c.txid == input.txid) = true →
        createFraudCase db input = Except.error Err.ConflictError) ∧
    (∀ u us, selectUsersById db input.created_by = u :: us →
        db.fraud_cases.any (fun c => c.txid == input.txid) = false →
        ∃ db' c, createFraudCase db input = Except.ok (db', c) ∧
          c.status = CaseStatus.open' ∧ c.assigned_to = none ∧
          c.txid = input.txid ∧ c.created_by = input.created_by) := by
  refine ⟨?_, ?_, ?_⟩
  · intro hmiss
    unfold createFraudCase
    rw [hmiss]
  · intro u us hu hdup
    unfold createFraudCase
    rw [hu]
    dsimp only
    rw [if_pos hdup]
  · intro u us hu hfresh
    unfold createFraudCase
    rw [hu]
    dsimp only
    rw [if_neg (by simp [hfresh])]
    exact ⟨_, _, rfl, rfl, rfl, rfl, rfl⟩

/-- C5 witness: on the fixture database, a missing creator fails with
NotFoundError, a duplicate txid fails with ConflictError, and the viewer
creating with a fresh txid succeeds with status `open` and no assignee. -/
theorem createFraudCase_spec_witness :
    createFraudCase baseDB
      { txid := "TX9", description := "a sufficiently long description"
        priority := .low, created_by := 99 } = Except.error Err.NotFoundError ∧
    createFraudCase baseDB
      { txid := "TX1", description := "a sufficiently long description"
        priority := .low, created_by := 4 } = Except.error Err.ConflictError ∧
    ∃ db' c, createFraudCase baseDB
      { txid := "TXNEW", description := "a sufficiently long description"
        priority := .low, created_by := 4 } = Except.ok (db', c) ∧
      c.status = CaseStatus.open' ∧ c.assigned_to = none ∧
      c.txid = "TXNEW" ∧ c.created_by = 4 := by
  refine ⟨?_, ?_, ?_⟩
  · exact (createFraudCase_spec baseDB _).1 rfl
  · exact (createFraudCase_spec baseDB _).2.1 u4 [] rfl rfl
  · exact (createFraudCase_spec baseDB _).2.2 u4 [] rfl rfl

/-- C6: `escalateCase` issues the record insert and the case update as two
separate statements with no transaction, so the commit point between them is
an observable persisted state when the case update fails: on the fixture
database it holds the new EscalationRecord while the case table is
completely unchanged — a partial escalation state, contradicting the
claimed both-or-neither atomicity. -/
theorem escalate_partial_commit_state :
    ∃ dbMid, dbMid ∈ escalateCommitStates baseDB escInputNoStatus ∧
      dbMid.case_escalations ≠ baseDB.case_escalations ∧
      dbMid.fraud_cases = baseDB.fraud_cases := by
  refine ⟨(escalateCommitStates baseDB escInputNoStatus).get ⟨1, by decide⟩,
    List.get_mem _ _ _, ?_, rfl⟩
  decide

/-- C7: Close succeeds exactly when the case's status is `resolved` and the
acting user is admin or an investigator/analyst assigned to the case; a
non-resolved (including already-closed) case fails with InvalidStateError
before any permission consideration, an unauthorized user on a resolved case
fails with PermissionError, and on success the status becomes `closed`. -/
theorem closeCase_spec (db : DB) (caseId userId : Nat) (u : User)
    (us : List User) (c : FraudCase) (cs : List FraudCase)
    (hu : selectUsersById db userId = u :: us)
    (hc : selectCasesById db caseId = c :: cs) :
    (c.status ≠ CaseStatus.resolved →
        closeCase db caseId userId = Except.error Err.InvalidStateError) ∧
    (c.status = CaseStatus.resolved →
      ¬(u.role = Role.admin ∨ (c.assigned_to = some userId ∧
          (u.role = Role.investigator ∨ u.role = Role.analyst))) →
        closeCase db caseId userId = Except.error Err.PermissionError) ∧
    (c.status = CaseStatus.resolved →
      (u.role = Role.admin ∨ (c.assigned_to = some userId ∧
          (u.role = Role.investigator ∨ u.role = Role.analyst))) →
        ∃ db' c', closeCase db caseId userId = Except.ok (db', c') ∧
          c'.status = CaseStatus.closed) := by
  refine ⟨?_, ?_, ?_⟩
  · intro hne
    unfold closeCase
    rw [hu]
    dsimp only
    rw [hc]
    dsimp only
    rw [if_pos (by simp [bne_iff_ne]; exact hne)]
  · intro hres hperm
    unfold closeCase
    rw [hu]
    dsimp only
    rw [hc]
    dsimp only
    rw [hres]
    rw [if_neg (by decide)]
    rw [if_pos ?cond]
    case cond =>
      simp only [Bool.not_eq_true', Bool.or_eq_false_iff, Bool.and_eq_false_iff,
        beq_eq_false_iff_ne]
      tauto
  · intro hres hperm
    unfold closeCase
    rw [hu]
    dsimp only
    rw [hc]
    dsimp only
    rw [hres]
    rw [if_neg (by decide)]
    rw [if_neg ?cond]
    case cond =>
      rcases hperm with h | ⟨hassn, hrl⟩
      · rw [h]
        simp
      · rcases hrl with h | h <;> rw [h] <;> simp [hassn]
    exact ⟨_, _, rfl, rfl⟩

/-- C7 witness: on the fixture database, the open case 1 cannot be closed
(InvalidStateError), the viewer cannot close the resolved case 3
(PermissionError), and the assigned analyst closes case 3 successfully with
resulting status `closed`. -/
theorem closeCase_spec_witness :
    closeCase baseDB 1 1 = Except.error Err.InvalidStateError ∧
    closeCase baseDB 3 4 = Except.error Err.PermissionError ∧
    ∃ db' c', closeCase baseDB 3 3 = Except.ok (db', c') ∧
      c'.status = CaseStatus.closed := by
  refine ⟨?_, ?_, ?_⟩
  · exact (closeCase_spec baseDB 1 1 u1 [] c1open [] rfl rfl).1 (by decide)
  · exact (closeCase_spec baseDB 3 4 u4 [] c3resolved [] rfl rfl).2.1 rfl
      (by decide)
  · exact (closeCase_spec baseDB 3 3 u3 [] c3resolved [] rfl rfl).2.2 rfl
      (Or.inr ⟨rfl, Or.inr rfl⟩)

/-- C8: Assign on an existing case requires an existing assignee with role
investigator or analyst (else ValidationError) and an existing assigner with
role admin, investigator or analyst (else PermissionError); when both hold
it always sets `assigned_to` to the assignee and forces the status to
`in_progress`, with no condition on the case's prior status. -/
theorem assignCase_spec (db : DB) (caseId aTo aBy : Nat)
    (c : FraudCase) (cs : List FraudCase) (assignee : User) (uts : List User)
    (assigner : User) (bts : List User)
    (hc : selectCasesById db caseId = c :: cs)
    (hT : selectUsersById db aTo = assignee :: uts)
    (hB : selectUsersById db aBy = assigner :: bts) :
    (¬(assignee.role = Role.investigator ∨ assignee.role = Role.analyst) →
        assignCase db caseId aTo aBy = Except.error Err.ValidationError) ∧
    ((assignee.role = Role.investigator ∨ assignee.role = Role.analyst) →
      ¬(assigner.role = Role.admin ∨ assigner.role = Role.investigator ∨
          assigner.role = Role.analyst) →
        assignCase db caseId aTo aBy = Except.error Err.PermissionError) ∧
    ((assignee.role = Role.investigator ∨ assignee.role = Role.analyst) →
      (assigner.role = Role.admin ∨ assigner.role = Role.investigator ∨
          assigner.role = Role.analyst) →
        ∃ db' c', assignCase db caseId aTo aBy = Except.ok (db', c') ∧
          c'.assigned_to = some aTo ∧ c'.status = CaseStatus.in_progress) := by
  refine ⟨?_, ?_, ?_⟩
  · intro hbad
    unfold assignCase
    rw [hc]
    dsimp only
    rw [hT]
    dsimp only
    rw [if_pos ?cond]
    case cond =>
      cases hr : assignee.role <;> rw [hr] at hbad <;>
        first
          | decide
          | simp at hbad
  · intro hgood hbad
    unfold assignCase
    rw [hc]
    dsimp only
    rw [hT]
    dsimp only
    rw [if_neg (by rcases hgood with h | h <;> rw [h] <;> decide)]
    rw [hB]
    dsimp only
    rw [if_pos ?cond]
    case cond =>
      cases hr : assigner.role <;> rw [hr] at hbad <;>
        first
          | decide
          | simp at hbad
  · intro hgood hauth
    unfold assignCase
    rw [hc]
    dsimp only
    rw [hT]
    dsimp only
    rw [if_neg (by rcases hgood with h | h <;> rw [h] <;> decide)]
    rw [hB]
    dsimp only
    rw [if_neg (by rcases hauth with h | h | h <;> rw [h] <;> decide)]
    exact ⟨_, _, rfl, rfl, rfl⟩

/-- C8 witness: on the fixture database, assigning case 1 to the viewer
fails with ValidationError, assigning by the viewer fails with
PermissionError, and assigning case 1 (status `open`) to the analyst by the
investigator succeeds with `assigned_to = 3` and status `in_progress`. -/
theorem assignCase_spec_witness :
    assignCase baseDB 1 4 1 = Except.error Err.ValidationError ∧
    assignCase baseDB 1 3 4 = Except.error Err.PermissionError ∧
    ∃ db' c', assignCase baseDB 1 3 2 = Except.ok (db', c') ∧
      c'.assigned_to = some 3 ∧ c'.status = CaseStatus.in_progress := by
  refine ⟨?_, ?_, ?_⟩
  · exact (assignCase_spec baseDB 1 4 1 c1open [] u4 [] u1 [] rfl rfl rfl).1
      (by decide)
  · exact (assignCase_spec baseDB 1 3 4 c1open [] u3 [] u4 [] rfl rfl rfl).2.1
      (Or.inr rfl) (by decide)
  · exact (assignCase_spec baseDB 1 3 2 c1open [] u3 [] u2 [] rfl rfl rfl).2.2
      (Or.inr rfl) (Or.inr (Or.inl rfl))

/-- C9: reading an existing case's escalation history as a viewer always
fails with PermissionError; as an admin, investigator or analyst it always
succeeds and returns the case's EscalationRecords sorted ascending by
creation time (a permutation of the stored rows for that case). -/
theorem getCaseEscalations_role_gate (db : DB) (caseId uid : Nat)
    (u : User) (us : List User) (c : FraudCase) (cs : List FraudCase)
    (hc : selectCasesById db caseId = c :: cs)
    (hu : selectUsersById db uid = u :: us) :
    (u.role = Role.viewer →
        getCaseEscalations db caseId (some uid) =
          Except.error Err.PermissionError) ∧
    (u.role ≠ Role.viewer →
        ∃ l, getCaseEscalations db caseId (some uid) = Except.ok l ∧
          List.Sorted escLE l ∧
          l.Perm (db.case_escalations.filter (fun e => e.case_id == caseId))) := by
  constructor
  · intro hrole
    unfold getCaseEscalations
    rw [hc]
    rw [if_neg (by simp)]
    dsimp only
    rw [hu]
    dsimp only
    rw [hrole]
    rw [if_pos (by decide)]
  · intro hrole
    unfold getCaseEscalations
    rw [hc]
    rw [if_neg (by simp)]
    dsimp only
    rw [hu]
    dsimp only
    rw [if_neg (by simp only [beq_iff_eq]; exact hrole)]
    exact ⟨_, rfl, List.sorted_insertionSort escLE _,
      List.perm_insertionSort escLE _⟩

/-- C9 witness: on the fixture database, the viewer is denied case 1's
history with PermissionError, while the admin receives the two stored
records sorted ascending by creation time. -/
theorem getCaseEscalations_role_gate_witness :
    getCaseEscalations baseDB 1 (some 4) = Except.error Err.PermissionError ∧
    ∃ l, getCaseEscalations baseDB 1 (some 1) = Except.ok l ∧
      List.Sorted escLE l ∧
      l.Perm (baseDB.case_escalations.filter (fun e => e.case_id == 1)) := by
  constructor
  · exact (getCaseEscalations_role_gate baseDB 1 4 u4 [] c1open [] rfl rfl).1 rfl
  · exact (getCaseEscalations_role_gate baseDB 1 1 u1 [] c1open [] rfl rfl).2
      (by decide)

/-- C10: when `getCaseEscalations` is called without a `userId`, every
role/permission check is skipped: for an existing case it returns the full
escalation history of that case (sorted ascending by creation time), and the
result does not depend on the users table at all. -/
theorem getCaseEscalations_no_user (db : DB) (caseId : Nat)
    (c : FraudCase) (cs : List FraudCase)
    (hc : selectCasesById db caseId = c :: cs) :
    ∃ l, getCaseEscalations db caseId none = Except.ok l ∧
      List.Sorted escLE l ∧
      l.Perm (db.case_escalations.filter (fun e => e.case_id == caseId)) ∧
      ∀ users2, getCaseEscalations { db with users := users2 } caseId none =
        getCaseEscalations db caseId none := by
  refine ⟨_, ?_, List.sorted_insertionSort escLE _,
    List.perm_insertionSort escLE _, fun users2 => rfl⟩
  unfold getCaseEscalations
  rw [hc]
  rw [if_neg (by simp)]
  rfl

/-- C10 witness: on the fixture database, the anonymous call for case 1
returns both stored records, sorted ascending, with no user check. -/
theorem getCaseEscalations_no_user_witness :
    ∃ l, getCaseEscalations baseDB 1 none = Except.ok l ∧
      List.Sorted escLE l ∧
      l.Perm (baseDB.case_escalations.filter (fun e => e.case_id == 1)) ∧
      ∀ users2, getCaseEscalations { baseDB with users := users2 } 1 none =
        getCaseEscalations baseDB 1 none := by
  exact getCaseEscalations_no_user baseDB 1 c1open [] rfl

end FraudMgr
